import Mathlib

/-!
Verification of the kurokiri document-extraction pipeline.

The Python sources are shallowly embedded: pure string and list
manipulations become Lean functions over `String` / `List`, geometry and
font sizes become exact rationals, the worker harness becomes a function
over the observable outcome of one job.  Each embedded definition mirrors
one Python function of the repository and keeps its name.
-/

set_option maxRecDepth 10000

/-! ## Python string primitives shared by all extractors -/

namespace Py

/-- Characters treated as whitespace by Python `str.strip` / regex `\s`
(ASCII range). -/
def isSpace (c : Char) : Bool :=
  c = ' ' || c = '\t' || c = '\n' || c = '\r' || c = '\x0b' || c = '\x0c'

/-- Python `str.lstrip()`. -/
def lstrip (s : String) : String :=
  (s.data.dropWhile isSpace).asString

/-- Python `str.rstrip()`. -/
def rstrip (s : String) : String :=
  ((s.data.reverse.dropWhile isSpace).reverse).asString

/-- Python `str.strip()`. -/
def strip (s : String) : String :=
  ((s.data.dropWhile isSpace).reverse.dropWhile isSpace).reverse.asString

/-- Python `str.lower()` restricted to ASCII letters. -/
def lower (s : String) : String :=
  (s.data.map Char.toLower).asString

/-- Python 3 `round()` on an exact rational value: round half to even. -/
def roundHalfEven (q : ℚ) : ℤ :=
  let f : ℤ := ⌊q⌋
  if q - f < 1/2 then f
  else if q - f > 1/2 then f + 1
  else if f % 2 = 0 then f else f + 1

/-- Python `int(round(0.5 * n))` for a page count `n : ℕ`: the value `n/2`
is exact in binary floating point, so this is round-half-to-even of `n/2`. -/
def roundHalfNat (n : ℕ) : ℕ :=
  if n % 2 = 0 then n / 2
  else if (n / 2) % 2 = 0 then n / 2 else n / 2 + 1

/-- Python `s.endswith(t)`. -/
def endswith (s t : String) : Bool :=
  decide (t.data <:+ s.data)

/-- Python `sep.join(xs)`. -/
def joinWith (sep : String) : List String → String
  | [] => ""
  | [x] => x
  | x :: y :: xs => x ++ sep ++ joinWith sep (y :: xs)

/-- `String.toList` distributes over append (same fact as
`String.data_append`, stated on `toList` for rewriting). -/
theorem toList_append (s t : String) : (s ++ t).toList = s.toList ++ t.toList :=
  String.data_append s t

end Py

/-! ## Markdown escaping (`md_escape` of the three extractors)

`text.replace("\\", "\\\\")` followed by
`re.sub(r"([<class>])", r"\\\1", text)` where the class is a set of single
characters; both passes map each character independently. -/

/-- One pass of `str.replace("\\", "\\\\")`. -/
def escBackslash (xs : List Char) : List Char :=
  (xs.map (fun c => if c = '\\' then ['\\', '\\'] else [c])).flatten

/-- One pass of `re.sub(r"([<class>])", r"\\\1", text)` for a single-character
class `cls`. -/
def escClass (cls : List Char) (xs : List Char) : List Char :=
  (xs.map (fun c => if c ∈ cls then ['\\', c] else [c])).flatten

namespace pdfExtract

/-- The class `` ` * _ { } [ ] ( ) # + . ! > `` escaped by
`toolbox/pdfExtract.py` (the source deliberately leaves `-` out:
"We do not escape '-' to preserve hyphenated words naturally"). -/
def mdChars : List Char :=
  ['\x60', '*', '_', '\x7b', '\x7d', '[', ']', '(', ')', '#', '+', '.', '!', '>']

/-- `md_escape` of `toolbox/pdfExtract.py`: backslash doubled first, then a
backslash inserted before every character of `mdChars`.  No pipe option. -/
def md_escape (s : String) : String :=
  if s = "" then "" else (escClass mdChars (escBackslash s.data)).asString

end pdfExtract

namespace docxExtract

/-- The class escaped by `md_escape` in `toolbox/docxExtract.py`:
`` ` * _ { } [ ] ( ) # + - . ! > ``, plus `|` when `escape_pipes`. -/
def mdChars (escape_pipes : Bool) : List Char :=
  ['\x60', '*', '_', '\x7b', '\x7d', '[', ']', '(', ')', '#', '+', '-', '.', '!', '>']
    ++ (if escape_pipes then ['|'] else [])

/-- `md_escape` of `toolbox/docxExtract.py`: backslash doubled first, then a
backslash inserted before every character of its class (which includes `-`),
and before `|` when `escape_pipes` is true. -/
def md_escape (s : String) (escape_pipes : Bool) : String :=
  if s = "" then "" else (escClass (mdChars escape_pipes) (escBackslash s.data)).asString

end docxExtract

/-- Single-character escaping map described by the specification: backslash
becomes two backslashes, a class character gets one backslash inserted
before it, anything else is unchanged. -/
def escapeSpecChar (cls : List Char) (c : Char) : List Char :=
  if c = '\\' then ['\\', '\\'] else if c ∈ cls then ['\\', c] else [c]

/-- Whole-string escaping as the specification words it (refinement target
for the two `md_escape` implementations). -/
def escapeSpec (cls : List Char) (s : String) : String :=
  ((s.data.map (escapeSpecChar cls)).flatten).asString

theorem escClass_append (cls : List Char) (xs ys : List Char) :
    escClass cls (xs ++ ys) = escClass cls xs ++ escClass cls ys := by
  simp [escClass]

theorem md_escape_passes_eq_spec (cls : List Char) (hcls : '\\' ∉ cls) (xs : List Char) :
    escClass cls (escBackslash xs) = (xs.map (escapeSpecChar cls)).flatten := by
  induction xs with
  | nil => simp [escBackslash, escClass]
  | cons c rest ih =>
    have hstep : escBackslash (c :: rest)
        = (if c = '\\' then ['\\', '\\'] else [c]) ++ escBackslash rest := by
      simp [escBackslash]
    rw [hstep, escClass_append, ih]
    by_cases hc : c = '\\'
    · subst hc
      simp [escClass, escapeSpecChar, hcls]
    · by_cases hmem : c ∈ cls <;> simp [escClass, escapeSpecChar, hc, hmem]

theorem escapeSpecChar_flatten_id (cls : List Char) :
    ∀ xs : List Char, (∀ c ∈ xs, c ≠ '\\' ∧ c ∉ cls) →
      (xs.map (escapeSpecChar cls)).flatten = xs := by
  intro xs h
  induction xs with
  | nil => simp
  | cons c rest ih =>
    have hc := h c (by simp)
    have hrest : ∀ x ∈ rest, x ≠ '\\' ∧ x ∉ cls := fun x hx =>
      h x (List.mem_cons_of_mem _ hx)
    simp [escapeSpecChar, hc.1, hc.2, ih hrest]

theorem escapeSpec_id (cls : List Char) (s : String)
    (h : ∀ c ∈ s.data, c ≠ '\\' ∧ c ∉ cls) : escapeSpec cls s = s := by
  unfold escapeSpec
  rw [escapeSpecChar_flatten_id cls s.data h]
  exact String.asString_toList s

theorem md_escape_docx_eq_spec (s : String) (ep : Bool) :
    docxExtract.md_escape s ep = escapeSpec (docxExtract.mdChars ep) s := by
  by_cases hs : s = ""
  · subst hs; rfl
  · unfold docxExtract.md_escape escapeSpec
    rw [if_neg hs, md_escape_passes_eq_spec]
    cases ep <;> decide

theorem md_escape_pdf_eq_spec (s : String) :
    pdfExtract.md_escape s = escapeSpec pdfExtract.mdChars s := by
  by_cases hs : s = ""
  · subst hs; rfl
  · unfold pdfExtract.md_escape escapeSpec
    rw [if_neg hs, md_escape_passes_eq_spec]
    decide

/-- C2 counterexample: the claim says `escape` inserts a backslash before
every `-`, but `md_escape` of `toolbox/pdfExtract.py` leaves `-` unescaped
(its class is `` `*_{}[]()#+.!> `` with no `-`), while `md_escape` of
`toolbox/docxExtract.py` on the same input does escape it — so the claimed
single shared behavior fails on the PDF module. -/
theorem md_escape_pdf_hyphen_cex :
    pdfExtract.md_escape "-" = "-" ∧ pdfExtract.md_escape "-" ≠ "\\-"
    ∧ docxExtract.md_escape "-" false = "\\-" := by
  refine ⟨?_, ?_, ?_⟩ <;> decide

/-- C2 (amended): `md_escape` of `toolbox/docxExtract.py` doubles each
backslash first and then inserts exactly one backslash before every
occurrence of a character of `` `*_{}[]()#+-.!> `` (plus `|` exactly when
`escape_pipes`), changing nothing else; `md_escape` of
`toolbox/pdfExtract.py` does the same for the class `` `*_{}[]()#+.!> ``
which omits `-`, and it has no pipe-escaping option.  Text containing no
class character and no backslash is returned unchanged by both. -/
theorem md_escape_characterization :
    (∀ (s : String) (ep : Bool),
        docxExtract.md_escape s ep = escapeSpec (docxExtract.mdChars ep) s)
    ∧ (∀ s : String, pdfExtract.md_escape s = escapeSpec pdfExtract.mdChars s)
    ∧ (∀ (s : String) (ep : Bool),
        (∀ c ∈ s.data, c ≠ '\\' ∧ c ∉ docxExtract.mdChars ep) →
        docxExtract.md_escape s ep = s)
    ∧ (∀ s : String,
        (∀ c ∈ s.data, c ≠ '\\' ∧ c ∉ pdfExtract.mdChars) →
        pdfExtract.md_escape s = s) := by
  refine ⟨md_escape_docx_eq_spec, md_escape_pdf_eq_spec, ?_, ?_⟩
  · intro s ep h
    rw [md_escape_docx_eq_spec]
    exact escapeSpec_id _ s h
  · intro s h
    rw [md_escape_pdf_eq_spec]
    exact escapeSpec_id _ s h

/-- C2 witness: concrete evaluations through `md_escape_characterization`:
clean text unchanged by both escapes, `|` escaped exactly when
`escape_pipes` is on, and a backslash doubled before a class character. -/
theorem md_escape_characterization_witness :
    docxExtract.md_escape "ab cd" true = "ab cd"
    ∧ pdfExtract.md_escape "x-y" = "x-y"
    ∧ docxExtract.md_escape "a|b" true = "a\\|b"
    ∧ docxExtract.md_escape "a|b" false = "a|b"
    ∧ docxExtract.md_escape "\\*" false = "\\\\\\*" := by
  refine ⟨md_escape_characterization.2.2.1 "ab cd" true (by decide),
    md_escape_characterization.2.2.2 "x-y" (by decide), ?_, ?_, ?_⟩
  · rw [md_escape_characterization.1 "a|b" true]
    decide
  · rw [md_escape_characterization.1 "a|b" false]
    decide
  · rw [md_escape_characterization.1 "\\*" false]
    decide

/-! ## Process-isolated worker harness (`kuro.py`, `multiProcessStarter`)

The queue/process machinery is abstracted into the observables of one job:
whether a message was obtained from the result queue within the timeout,
whether the worker was still alive when the timeout fired, and the worker's
exit status after `join`. -/

namespace kuro

/-- A message a worker enqueues: a Markdown result, or the `("err", msg)`
marker a worker puts when it catches an exception internally. -/
inductive WorkerMessage where
  | ok (md : String)
  | err (info : String)
deriving DecidableEq, Repr

/-- Observable run of one extraction job. `delivered` is the message
obtained from the result queue within the timeout budget, if any;
`aliveAtTimeout` is `p.is_alive()` at the moment `rQ.get` timed out;
`exitcode` is the worker's exit status after `p.join()`. -/
structure JobRun where
  workerName : String
  inputPath : String
  delivered : Option WorkerMessage
  aliveAtTimeout : Bool
  exitcode : ℤ
deriving DecidableEq, Repr

/-- Outcome of `multiProcessStarter`: either the delivered message is
returned, or a `RuntimeError` with the given message is raised. -/
inductive HarnessOutcome where
  | success (msg : WorkerMessage)
  | raisedError (msg : String)
deriving DecidableEq, Repr

/-- The word interpolated by `{'hung' if alive else 'exited'}`. -/
def livenessWord (alive : Bool) : String :=
  if alive then "hung" else "exited"

/-- The `RuntimeError` message raised when `rQ.get` times out. -/
def timeoutMessage (name : String) (alive : Bool) (path : String) : String :=
  name ++ " " ++ livenessWord alive ++ " without producing a result for " ++ path

/-- The `RuntimeError` message raised when the worker exits non-zero. -/
def crashMessage (name : String) (code : ℤ) (path : String) : String :=
  name ++ " exited with code " ++ toString code ++ " for " ++ path

/-- `multiProcessStarter` of `kuro.py`: get from the queue with a timeout;
on `Empty`, check liveness, terminate, and raise the timeout message;
otherwise join the worker and raise the crash message when its exit code
is non-zero, else return the delivered result. -/
def multiProcessStarter (j : JobRun) : HarnessOutcome :=
  match j.delivered with
  | none => .raisedError (timeoutMessage j.workerName j.aliveAtTimeout j.inputPath)
  | some result =>
      if j.exitcode ≠ 0 then
        .raisedError (crashMessage j.workerName j.exitcode j.inputPath)
      else
        .success result

end kuro

/-- C3: a result delivered before the timeout does not override a non-zero
exit code: the harness raises the crash message (which carries the exit
code) and never returns the delivered message. -/
theorem crash_overrides_delivered_result (j : kuro.JobRun) (r : kuro.WorkerMessage)
    (hdel : j.delivered = some r) (hexit : j.exitcode ≠ 0) :
    kuro.multiProcessStarter j
      = .raisedError (j.workerName ++ " exited with code " ++ toString j.exitcode
          ++ " for " ++ j.inputPath)
    ∧ ∀ r' : kuro.WorkerMessage, kuro.multiProcessStarter j ≠ .success r' := by
  unfold kuro.multiProcessStarter
  rw [hdel]
  simp [kuro.crashMessage, hexit]

/-- C3 witness: a job that delivers a result but exits with code 1. -/
theorem crash_overrides_delivered_result_witness :
    kuro.multiProcessStarter ⟨"pdfWorker", "a.pdf", some (.ok "# Title"), false, 1⟩
      = .raisedError ("pdfWorker" ++ " exited with code " ++ toString (1 : ℤ)
          ++ " for " ++ "a.pdf")
    ∧ ∀ r' : kuro.WorkerMessage,
        kuro.multiProcessStarter ⟨"pdfWorker", "a.pdf", some (.ok "# Title"), false, 1⟩
          ≠ .success r' :=
  crash_overrides_delivered_result _ (.ok "# Title") rfl (by decide)

theorem timeoutMessage_len (name path : String) (alive : Bool) :
    (kuro.timeoutMessage name alive path).length
      = name.length + 1 + (kuro.livenessWord alive).length + 32 + path.length := by
  simp only [kuro.timeoutMessage, String.length_append]
  have h1 : (" " : String).length = 1 := rfl
  have h2 : (" without producing a result for " : String).length = 32 := rfl
  omega

/-- C4: when no result arrives within the timeout, the harness raises a
failure built from `timeoutMessage`; the interpolated word is `"hung"`
exactly when the worker was still alive at the timeout and `"exited"`
exactly when it had already died, and the two reports are distinct for
every worker name and input path. -/
theorem timeout_reports_distinguish_hung_and_exited (j : kuro.JobRun)
    (hnone : j.delivered = none) :
    kuro.multiProcessStarter j
      = .raisedError (kuro.timeoutMessage j.workerName j.aliveAtTimeout j.inputPath)
    ∧ (kuro.livenessWord j.aliveAtTimeout = "hung" ↔ j.aliveAtTimeout = true)
    ∧ (kuro.livenessWord j.aliveAtTimeout = "exited" ↔ j.aliveAtTimeout = false)
    ∧ ∀ name path : String,
        kuro.timeoutMessage name true path ≠ kuro.timeoutMessage name false path := by
  refine ⟨?_, ?_, ?_, ?_⟩
  · unfold kuro.multiProcessStarter
    rw [hnone]
  · cases hb : j.aliveAtTimeout <;> simp [kuro.livenessWord]
  · cases hb : j.aliveAtTimeout <;> simp [kuro.livenessWord]
  · intro name path heq
    have hlen := congrArg String.length heq
    rw [timeoutMessage_len, timeoutMessage_len] at hlen
    have h4 : (kuro.livenessWord true).length = 4 := rfl
    have h6 : (kuro.livenessWord false).length = 6 := rfl
    omega

/-- C4 witness: a silent job with the worker still alive at the timeout. -/
theorem timeout_reports_witness :
    kuro.multiProcessStarter ⟨"docxWorker", "b.docx", none, true, 0⟩
      = .raisedError (kuro.timeoutMessage "docxWorker" true "b.docx")
    ∧ (kuro.livenessWord true = "hung" ↔ true = true)
    ∧ (kuro.livenessWord true = "exited" ↔ true = false)
    ∧ ∀ name path : String,
        kuro.timeoutMessage name true path ≠ kuro.timeoutMessage name false path :=
  timeout_reports_distinguish_hung_and_exited ⟨"docxWorker", "b.docx", none, true, 0⟩ rfl

/-! ## PDF heading classification (`heading_level_for_size`) -/

namespace pdfExtract

/-- `heading_level_for_size` of `toolbox/pdfExtract.py`: map a font size to
a Markdown heading level relative to the body size, `none` for body text. -/
def heading_level_for_size (size body : ℚ) : Option ℕ :=
  if body ≤ 0 then none
  else
    let ratio := size / body
    if (2.1 : ℚ) ≤ ratio then some 1
    else if (1.8 : ℚ) ≤ ratio then some 2
    else if (1.6 : ℚ) ≤ ratio then some 3
    else if (1.45 : ℚ) ≤ ratio then some 4
    else if (1.3 : ℚ) ≤ ratio then some 5
    else if (1.18 : ℚ) ≤ ratio then some 6
    else none

end pdfExtract

set_option maxHeartbeats 2000000 in
/-- C7: heading classification is monotonic: for a fixed body size `> 0`
and font sizes `s2 ≤ s1`, whenever `s2` is classified as a heading, `s1`
is classified as a heading of a level that is not numerically deeper. -/
theorem heading_level_monotone (body s1 s2 : ℚ) (hbody : 0 < body)
    (hle : s2 ≤ s1) (l2 : ℕ)
    (h2 : pdfExtract.heading_level_for_size s2 body = some l2) :
    ∃ l1 : ℕ, pdfExtract.heading_level_for_size s1 body = some l1 ∧ l1 ≤ l2 := by
  have hr : s2 / body ≤ s1 / body := div_le_div_of_nonneg_right hle hbody.le
  unfold pdfExtract.heading_level_for_size at h2 ⊢
  rw [if_neg (not_le.mpr hbody)] at h2 ⊢
  simp only at h2 ⊢
  split_ifs at h2 ⊢ <;>
    first
      | exact Option.noConfusion h2
      | (injection h2 with hh; subst hh; refine ⟨_, rfl, ?_⟩; decide)
      | (exfalso; linarith)

/-- C7 witness: body 10, sizes 21 and 18 map to levels 1 and 2. -/
theorem heading_level_monotone_witness :
    ∃ l1 : ℕ, pdfExtract.heading_level_for_size 21 10 = some l1 ∧ l1 ≤ 2 :=
  heading_level_monotone 10 21 18 (by norm_num) (by norm_num) 2
    (by norm_num [pdfExtract.heading_level_for_size])

/-! ## DOCX conversion entry point (`convert_docx_to_markdown`) -/

namespace docxExtract

/-- Outcome of the external Pandoc collaborator inside
`try_convert_with_pandoc`: the `import pypandoc` failed, the conversion
call raised, or the conversion returned a Markdown string. -/
inductive PandocOutcome where
  | unavailable
  | convertFailed
  | converted (md : String)
deriving DecidableEq, Repr

/-- `try_convert_with_pandoc` of `toolbox/docxExtract.py`: `None` when
pypandoc is unavailable or the conversion raises, else the Markdown. -/
def try_convert_with_pandoc : PandocOutcome → Option String
  | .unavailable => none
  | .convertFailed => none
  | .converted md => some md

/-- Which converter produced the returned Markdown. -/
inductive ConversionSource where
  | pandoc
  | pythonDocx
deriving DecidableEq, Repr

/-- `convert_docx_to_markdown` of `toolbox/docxExtract.py`: use the Pandoc
result when it is not `None` and truthy after `strip()`, else fall back to
`convert_with_python_docx` (whose result is the opaque `pythonDocxMd`). -/
def convert_docx_to_markdown (pandoc : PandocOutcome) (pythonDocxMd : String) :
    String × ConversionSource :=
  match try_convert_with_pandoc pandoc with
  | some md => if Py.strip md ≠ "" then (md, .pandoc) else (pythonDocxMd, .pythonDocx)
  | none => (pythonDocxMd, .pythonDocx)

end docxExtract

/-- C9: when pypandoc is importable and conversion yields text that is
non-empty after stripping, that text is returned verbatim and the
python-docx converter is not used; the python-docx path runs exactly when
Pandoc is unavailable, fails, or yields blank output. -/
theorem pandoc_short_circuits_python_docx (po : docxExtract.PandocOutcome)
    (md : String) (hpo : po = .converted md) (hnb : Py.strip md ≠ "") :
    (∀ fallback : String,
        docxExtract.convert_docx_to_markdown po fallback = (md, .pandoc))
    ∧ (∀ fallback : String,
        docxExtract.convert_docx_to_markdown .unavailable fallback
          = (fallback, .pythonDocx))
    ∧ (∀ fallback : String,
        docxExtract.convert_docx_to_markdown .convertFailed fallback
          = (fallback, .pythonDocx))
    ∧ (∀ (s fallback : String), Py.strip s = "" →
        docxExtract.convert_docx_to_markdown (.converted s) fallback
          = (fallback, .pythonDocx)) := by
  subst hpo
  refine ⟨?_, fun _ => rfl, fun _ => rfl, ?_⟩
  · intro fallback
    simp [docxExtract.convert_docx_to_markdown, docxExtract.try_convert_with_pandoc, hnb]
  · intro s fallback hs
    simp [docxExtract.convert_docx_to_markdown, docxExtract.try_convert_with_pandoc, hs]

/-- C9 witness: a Pandoc conversion returning `"# Out"`. -/
theorem pandoc_short_circuits_witness :
    docxExtract.convert_docx_to_markdown (.converted "# Out") "python-docx output"
      = ("# Out", .pandoc) :=
  (pandoc_short_circuits_python_docx (.converted "# Out") "# Out" rfl
    (by decide)).1 "python-docx output"

/-! ## Spreadsheet extractor (`toolbox/xlsxExtract.py`)

Cells are taken after `worksheet_to_rows`, i.e. as Markdown-safe strings;
the cropping, table rendering and per-sheet assembly are embedded. -/

namespace xlsxExtract

/-- Truthiness of `c.strip()` for a cell string. -/
def cellNonBlank (c : String) : Bool :=
  Py.strip c ≠ ""

/-- `row_is_empty` inside `crop_rows_and_cols`. -/
def row_is_empty (r : List String) : Bool :=
  !(r.any cellNonBlank)

/-- `last_non_empty_row` of `crop_rows_and_cols`: greatest row index holding
a non-blank cell (`none` for the Python sentinel `-1`). -/
def lastNonEmptyRowIdx : List (List String) → Option ℕ
  | [] => none
  | r :: rest =>
      match lastNonEmptyRowIdx rest with
      | some i => some (i + 1)
      | none => if row_is_empty r then none else some 0

/-- Greatest cell index of a non-blank cell within one row. -/
def lastNonEmptyColInRow : List String → Option ℕ
  | [] => none
  | c :: rest =>
      match lastNonEmptyColInRow rest with
      | some i => some (i + 1)
      | none => if cellNonBlank c then some 0 else none

/-- Maximum of two optional indices (`-1` sentinel as `none`). -/
def optMax : Option ℕ → Option ℕ → Option ℕ
  | none, b => b
  | some a, none => some a
  | some a, some b => some (max a b)

/-- `last_non_empty_col` of `crop_rows_and_cols`. -/
def lastNonEmptyColIdx (rows : List (List String)) : Option ℕ :=
  rows.foldl (fun acc r => optMax acc (lastNonEmptyColInRow r)) none

/-- Pad with `""` then slice to exactly `w` cells (`row + [""]*(end_col+1-len)`
followed by `row[: end_col + 1]`). -/
def setLen (w : ℕ) (r : List String) : List String :=
  (r ++ List.replicate (w - r.length) "").take w

/-- `crop_rows_and_cols` of `toolbox/xlsxExtract.py`.  `max_rows`/`max_cols`
are Python ints with `0` meaning "no limit".  The Python `-1` sentinels for
"no non-empty row/column" become `Option`. -/
def crop_rows_and_cols (rows : List (List String)) (keep_empty : Bool)
    (max_rows max_cols : ℕ) : List (List String) :=
  match rows with
  | [] => []
  | r0 :: _ =>
      match lastNonEmptyRowIdx rows with
      | none => []
      | some lner =>
          let start_row := if keep_empty then 0 else (rows.takeWhile row_is_empty).length
          let end_row0 := if keep_empty then rows.length - 1 else lner
          let width0 :=
            if keep_empty then r0.length
            else
              match lastNonEmptyColIdx rows with
              | some c => c + 1
              | none => r0.length
          let end_row := if 0 < max_rows then min end_row0 (start_row + max_rows - 1) else end_row0
          let width := if 0 < max_cols then min width0 max_cols else width0
          (List.range' start_row (end_row + 1 - start_row)).map
            (fun ri => setLen width (rows.getD ri []))

/-- `"| " + " | ".join(cells) + " |"`. -/
def pipeRow (cells : List String) : String :=
  "| " ++ String.intercalate " | " cells ++ " |"

/-- `[f"Column {i+1}" for i in range(num_cols)]`. -/
def columnLabels (n : ℕ) : List String :=
  (List.range n).map (fun i => "Column " ++ toString (i + 1))

/-- `max((len(r) for r in rows), default=0)`. -/
def maxColsOf (rows : List (List String)) : ℕ :=
  (rows.map List.length).foldl max 0

/-- `rows_to_markdown` of `toolbox/xlsxExtract.py`. -/
def rows_to_markdown (rows : List (List String)) (first_row_is_header : Bool) : String :=
  if rows = [] then ""
  else
    let num_cols := maxColsOf rows
    if num_cols = 0 then ""
    else
      let norm := rows.map (fun r => r ++ List.replicate (num_cols - r.length) "")
      let hb : List String × List (List String) :=
        if first_row_is_header then
          let header := norm.headD []
          if !(header.any cellNonBlank) then (columnLabels num_cols, norm)
          else (header, norm.tail)
        else (columnLabels num_cols, norm)
      let sep := List.replicate num_cols "---"
      Py.joinWith "\n" ([pipeRow hb.1, pipeRow sep] ++ hb.2.map pipeRow)

/-- The `out_lines` entries the sheet loop of `main` appends for one sheet
(after `worksheet_to_rows`): heading, blank, table or `_(No data)_`, blank. -/
def sheetOutLines (no_header keep_empty : Bool) (name : String)
    (rows : List (List String)) : List String :=
  let rows2 := crop_rows_and_cols rows keep_empty 0 0
  if rows2 = [] then ["## Sheet: " ++ name, "", "_(No data)_", ""]
  else ["## Sheet: " ++ name, "", rows_to_markdown rows2 (!no_header), ""]

/-- The sheet loop of `main`: an initial empty line, the per-sheet lines,
then `"\n".join(out_lines).rstrip() + "\n"`. -/
def mainRender (no_header keep_empty : Bool)
    (sheets : List (String × List (List String))) : String :=
  let out := [""] ++ (sheets.map (fun p => sheetOutLines no_header keep_empty p.1 p.2)).flatten
  Py.rstrip (Py.joinWith "\n" out) ++ "\n"

end xlsxExtract

theorem setLen_length (w : ℕ) (r : List String) :
    (xlsxExtract.setLen w r).length = w := by
  simp only [xlsxExtract.setLen, List.length_take, List.length_append,
    List.length_replicate]
  omega

theorem lastNonEmptyRowIdx_eq_none (rows : List (List String)) :
    xlsxExtract.lastNonEmptyRowIdx rows = none
      ↔ (rows.any (fun r => r.any xlsxExtract.cellNonBlank)) = false := by
  induction rows with
  | nil => simp [xlsxExtract.lastNonEmptyRowIdx]
  | cons r rest ih =>
    simp only [xlsxExtract.lastNonEmptyRowIdx, List.any_cons]
    cases h : xlsxExtract.lastNonEmptyRowIdx rest with
    | some i =>
      rw [h] at ih
      simp only [h]
      constructor
      · intro hc; exact absurd hc (by simp)
      · intro hc
        have : rest.any (fun r => r.any xlsxExtract.cellNonBlank) = false := by
          rcases Bool.or_eq_false_iff.mp hc with ⟨_, hb⟩
          exact hb
        exact absurd (ih.mpr this) (by simp)
    | none =>
      rw [h] at ih
      simp only [h]
      have hrest := ih.mp rfl
      rw [hrest]
      simp [xlsxExtract.row_is_empty]

theorem map_range_getD (g : List String → List String) :
    ∀ xs : List (List String),
      (List.range xs.length).map (fun ri => g (xs.getD ri [])) = xs.map g := by
  intro xs
  induction xs with
  | nil => simp
  | cons x rest ih =>
    rw [List.length_cons, List.range_succ_eq_map]
    simp only [List.map_cons, List.getD_cons_zero, List.map_map]
    refine congrArg (List.cons (g x)) ?_
    have hcomp : ((fun ri => g ((x :: rest).getD ri [])) ∘ (· + 1))
        = fun i => g (rest.getD i []) := by
      funext i
      simp [List.getD_cons_succ]
    rw [hcomp, ih]

theorem crop_keep_empty_eq (r0 : List String) (rest : List (List String)) :
    xlsxExtract.crop_rows_and_cols (r0 :: rest) true 0 0
      = if xlsxExtract.lastNonEmptyRowIdx (r0 :: rest) = none then []
        else (r0 :: rest).map (xlsxExtract.setLen r0.length) := by
  unfold xlsxExtract.crop_rows_and_cols
  cases h : xlsxExtract.lastNonEmptyRowIdx (r0 :: rest) with
  | none => simp [h]
  | some lner =>
    rw [if_neg (by simp : ¬ (some lner = none))]
    simp only [h, if_true]
    have hn : (r0 :: rest).length - 1 + 1 - 0 = (r0 :: rest).length := by
      simp
    have h00 : ¬ (0 : ℕ) < 0 := Nat.lt_irrefl 0
    simp only [if_neg h00, hn]
    rw [← List.range_eq_range', map_range_getD]

/-- C10: with `keep_empty=True` and no caps, every surviving row is padded
or truncated to exactly the first row's cell count, so cells of later rows
at column indices past the first row's length are dropped; a grid with at
least one non-blank cell keeps all its rows so normalized, and an all-blank
grid yields no rows at all. -/
theorem crop_keep_empty_normalizes (r0 : List String) (rest : List (List String)) :
    (∀ r ∈ xlsxExtract.crop_rows_and_cols (r0 :: rest) true 0 0,
        r.length = r0.length)
    ∧ (((r0 :: rest).any (fun r => r.any xlsxExtract.cellNonBlank)) = true →
        xlsxExtract.crop_rows_and_cols (r0 :: rest) true 0 0
          = (r0 :: rest).map (xlsxExtract.setLen r0.length))
    ∧ (((r0 :: rest).any (fun r => r.any xlsxExtract.cellNonBlank)) = false →
        xlsxExtract.crop_rows_and_cols (r0 :: rest) true 0 0 = []) := by
  refine ⟨?_, ?_, ?_⟩
  · intro r hr
    rw [crop_keep_empty_eq] at hr
    by_cases hnone : xlsxExtract.lastNonEmptyRowIdx (r0 :: rest) = none
    · rw [if_pos hnone] at hr
      cases hr
    · rw [if_neg hnone] at hr
      obtain ⟨r', _, hr'⟩ := List.mem_map.mp hr
      rw [← hr']
      exact setLen_length r0.length r'
  · intro hany
    rw [crop_keep_empty_eq, if_neg]
    intro hnone
    rw [(lastNonEmptyRowIdx_eq_none _).mp hnone] at hany
    cases hany
  · intro hnone
    rw [crop_keep_empty_eq, if_pos ((lastNonEmptyRowIdx_eq_none _).mpr hnone)]

/-- C10 witness: a two-row grid whose second row overflows the first row's
single column: the overflow cell `"c"` is dropped. -/
theorem crop_keep_empty_normalizes_witness :
    xlsxExtract.crop_rows_and_cols [["a"], ["b", "c"]] true 0 0 = [["a"], ["b"]] := by
  have h := (crop_keep_empty_normalizes ["a"] [["b", "c"]]).2.1 (by decide)
  rw [h]
  decide

theorem string_eq_of_toList (s t : String) (h : s.toList = t.toList) : s = t :=
  String.toList_inj.mp h

theorem rstrip_append_nodata (s : String) :
    Py.rstrip (s ++ "_(No data)_\n") = s ++ "_(No data)_" := by
  apply string_eq_of_toList
  show ((s ++ "_(No data)_\n").data.reverse.dropWhile Py.isSpace).reverse
      = (s ++ "_(No data)_").toList
  rw [String.data_append, List.reverse_append, List.dropWhile_append]
  have h1 : ("_(No data)_\n" : String).data.reverse.dropWhile Py.isSpace
      = ("_(No data)_" : String).data.reverse := by decide
  rw [h1]
  have h2 : (("_(No data)_" : String).data.reverse).isEmpty = false := by decide
  rw [h2]
  simp only [Bool.false_eq_true, if_false, List.reverse_append, List.reverse_reverse]
  rw [Py.toList_append]
  rfl

/-- C6: a sheet whose grid crops to nothing (zero non-blank cells) renders
exactly as the heading line, a blank line, and the literal `_(No data)_`
line: the fragment `## Sheet: <name>\n\n_(No data)_\n`; for a workbook of
just that sheet the whole rendering is that fragment after the initial
blank line. -/
theorem empty_sheet_renders_no_data (nh ke : Bool) (name : String)
    (rows : List (List String))
    (hempty : xlsxExtract.crop_rows_and_cols rows ke 0 0 = []) :
    Py.joinWith "\n" (xlsxExtract.sheetOutLines nh ke name rows)
      = "## Sheet: " ++ name ++ "\n\n_(No data)_\n"
    ∧ xlsxExtract.mainRender nh ke [(name, rows)]
      = "\n## Sheet: " ++ name ++ "\n\n_(No data)_\n" := by
  have hlines : xlsxExtract.sheetOutLines nh ke name rows
      = ["## Sheet: " ++ name, "", "_(No data)_", ""] := by
    unfold xlsxExtract.sheetOutLines
    rw [hempty]
    simp
  constructor
  · rw [hlines]
    simp only [Py.joinWith, String.append_assoc, String.append_empty,
      String.empty_append]
    rfl
  · unfold xlsxExtract.mainRender
    simp only [List.map_cons, List.map_nil]
    rw [hlines]
    have hJ : Py.joinWith "\n"
          ([""] ++ ([["## Sheet: " ++ name, "", "_(No data)_", ""]]).flatten)
        = ("\n## Sheet: " ++ name ++ "\n\n") ++ "_(No data)_\n" := by
      simp only [List.flatten, List.append_nil, List.cons_append, List.nil_append]
      simp only [Py.joinWith, String.append_assoc, String.append_empty,
        String.empty_append]
      rw [← String.append_assoc]
      congr 1
    rw [hJ, rstrip_append_nodata]
    simp only [String.append_assoc]
    rfl

/-- C6 witness: an all-blank two-by-two sheet named `Data`. -/
theorem empty_sheet_renders_no_data_witness :
    Py.joinWith "\n" (xlsxExtract.sheetOutLines false false "Data" [["", ""], ["", ""]])
      = "## Sheet: " ++ "Data" ++ "\n\n_(No data)_\n"
    ∧ xlsxExtract.mainRender false false [("Data", [["", ""], ["", ""]])]
      = "\n## Sheet: " ++ "Data" ++ "\n\n_(No data)_\n" :=
  empty_sheet_renders_no_data false false "Data" [["", ""], ["", ""]] (by decide)

/-! ## Slide-deck and word-processing table renderers (C5) -/

namespace pptxExtract

/-- `max((len(r) for r in rows), default=0)`. -/
def maxColsOf (rows : List (List String)) : ℕ :=
  (rows.map List.length).foldl max 0

/-- `"| " + " | ".join(r) + " |"`. -/
def pipeRow (cells : List String) : String :=
  "| " ++ String.intercalate " | " cells ++ " |"

/-- `[f"Column {i+1}" for i in range(num_cols)]`. -/
def columnLabels (n : ℕ) : List String :=
  (List.range n).map (fun i => "Column " ++ toString (i + 1))

/-- `table_to_markdown` of `toolbox/pptxExtract.py`, taken after the cell
texts have been collected into `rows`: column normalization, header
selection (synthesized `Column N` labels when the first row is blank or
`header` is off), and pipe-line assembly. -/
def table_to_markdown (rows : List (List String)) (header : Bool) : String :=
  if rows = [] then ""
  else
    let num_cols := maxColsOf rows
    let norm := rows.map (fun r => r ++ List.replicate (num_cols - r.length) "")
    let hb : List String × List (List String) :=
      if header && !norm.isEmpty then
        let hdr := norm.headD []
        if !(hdr.any (fun x => Py.strip x ≠ "")) then (columnLabels num_cols, norm)
        else (hdr, norm.tail)
      else (columnLabels num_cols, norm)
    Py.joinWith "\n" ([pipeRow hb.1, pipeRow (List.replicate num_cols "---")]
      ++ hb.2.map pipeRow)

end pptxExtract

namespace docxExtract

/-- `max((len(r) for r in rows), default=0)`. -/
def maxColsOf (rows : List (List String)) : ℕ :=
  (rows.map List.length).foldl max 0

/-- `"| " + " | ".join(r) + " |"`. -/
def pipeRow (cells : List String) : String :=
  "| " ++ String.intercalate " | " cells ++ " |"

/-- `table_to_markdown` of `toolbox/docxExtract.py` after cell collection:
rows are padded to the maximum width, then the first row is always the
header — there is no blank-header synthesis in this module. -/
def table_to_markdown (rows : List (List String)) : String :=
  if rows = [] then ""
  else
    let max_cols := maxColsOf rows
    let norm := rows.map (fun r => r ++ List.replicate (max_cols - r.length) "")
    Py.joinWith "\n" ([pipeRow (norm.headD []), pipeRow (List.replicate max_cols "---")]
      ++ norm.tail.map pipeRow)

end docxExtract

theorem any_append_replicate_blank (p : String → Bool) (hp : p "" = false)
    (r : List String) (k : ℕ) :
    ((r ++ List.replicate k "").any p) = r.any p := by
  rw [List.any_append]
  have h : (List.replicate k ("" : String)).any p = false := by
    induction k with
    | zero => rfl
    | succ n ih => rw [List.replicate_succ, List.any_cons, ih, hp]; rfl
  rw [h, Bool.or_false]

/-- C5 counterexample: the docx table renderer, given an entirely blank
first data row, keeps it as the header and renders the remaining rows as
body — it does not synthesize `Column N` labels nor keep the blank row in
the body as the claim states. -/
theorem docx_table_blank_header_cex :
    docxExtract.table_to_markdown [["", ""], ["a", "b"]]
      = "|  |  |\n| --- | --- |\n| a | b |"
    ∧ docxExtract.table_to_markdown [["", ""], ["a", "b"]]
      ≠ "| Column 1 | Column 2 |\n| --- | --- |\n|  |  |\n| a | b |" := by
  constructor <;> decide

/-- C5 (amended): with the header flag on and an entirely blank first data
row, the spreadsheet renderer (`xlsxExtract.rows_to_markdown`) and the
slide renderer (`pptxExtract.table_to_markdown`) synthesize a
`Column 1..Column N` header (`N` the maximum column count) and keep all
input rows — the blank first row included — as body rows; the
word-processing renderer (`docxExtract.table_to_markdown`) instead always
uses the first row as header, blank or not, with only the remaining rows
as body. -/
theorem table_blank_header_rules :
    (∀ (r0 : List String) (rest : List (List String)),
        0 < xlsxExtract.maxColsOf (r0 :: rest) →
        (r0.any xlsxExtract.cellNonBlank) = false →
        xlsxExtract.rows_to_markdown (r0 :: rest) true
          = Py.joinWith "\n"
              ([xlsxExtract.pipeRow
                  (xlsxExtract.columnLabels (xlsxExtract.maxColsOf (r0 :: rest))),
                xlsxExtract.pipeRow
                  (List.replicate (xlsxExtract.maxColsOf (r0 :: rest)) "---")]
                ++ ((r0 :: rest).map (fun r =>
                      r ++ List.replicate (xlsxExtract.maxColsOf (r0 :: rest) - r.length) "")).map
                    xlsxExtract.pipeRow))
    ∧ (∀ (r0 : List String) (rest : List (List String)),
        (r0.any (fun x => Py.strip x ≠ "")) = false →
        pptxExtract.table_to_markdown (r0 :: rest) true
          = Py.joinWith "\n"
              ([pptxExtract.pipeRow
                  (pptxExtract.columnLabels (pptxExtract.maxColsOf (r0 :: rest))),
                pptxExtract.pipeRow
                  (List.replicate (pptxExtract.maxColsOf (r0 :: rest)) "---")]
                ++ ((r0 :: rest).map (fun r =>
                      r ++ List.replicate (pptxExtract.maxColsOf (r0 :: rest) - r.length) "")).map
                    pptxExtract.pipeRow))
    ∧ (∀ (r0 : List String) (rest : List (List String)),
        docxExtract.table_to_markdown (r0 :: rest)
          = Py.joinWith "\n"
              ([docxExtract.pipeRow
                  (r0 ++ List.replicate (docxExtract.maxColsOf (r0 :: rest) - r0.length) ""),
                docxExtract.pipeRow
                  (List.replicate (docxExtract.maxColsOf (r0 :: rest)) "---")]
                ++ (rest.map (fun r =>
                      r ++ List.replicate (docxExtract.maxColsOf (r0 :: rest) - r.length) "")).map
                    docxExtract.pipeRow)) := by
  refine ⟨?_, ?_, ?_⟩
  · intro r0 rest hcols hblank
    unfold xlsxExtract.rows_to_markdown
    rw [if_neg (by simp : ¬ (r0 :: rest = [])), if_neg (Nat.pos_iff_ne_zero.mp hcols)]
    simp only [List.map_cons, List.headD_cons, if_pos rfl]
    rw [any_append_replicate_blank xlsxExtract.cellNonBlank (by decide) r0 _, hblank]
    simp
  · intro r0 rest hblank
    unfold pptxExtract.table_to_markdown
    rw [if_neg (by simp : ¬ (r0 :: rest = []))]
    simp only [List.map_cons, List.headD_cons, List.isEmpty_cons, Bool.not_false,
      Bool.and_true, if_pos rfl]
    rw [any_append_replicate_blank (fun x => Py.strip x ≠ "") (by decide) r0 _, hblank]
    simp
  · intro r0 rest
    unfold docxExtract.table_to_markdown
    rw [if_neg (by simp : ¬ (r0 :: rest = []))]
    simp only [List.map_cons, List.headD_cons, List.tail_cons]

/-- C5 witness: a blank two-cell first row followed by `["x"]` through the
spreadsheet, slide and word-processing renderers. -/
theorem table_blank_header_rules_witness :
    xlsxExtract.rows_to_markdown [["", ""], ["x"]] true
      = "| Column 1 | Column 2 |\n| --- | --- |\n|  |  |\n| x |  |"
    ∧ pptxExtract.table_to_markdown [["", ""], ["x"]] true
      = "| Column 1 | Column 2 |\n| --- | --- |\n|  |  |\n| x |  |"
    ∧ docxExtract.table_to_markdown [["", ""], ["x"]]
      = "|  |  |\n| --- | --- |\n| x |  |" := by
  refine ⟨?_, ?_, ?_⟩
  · rw [table_blank_header_rules.1 ["", ""] [["x"]] (by decide) (by decide)]
    decide
  · rw [table_blank_header_rules.2.1 ["", ""] [["x"]] (by decide)]
    decide
  · rw [table_blank_header_rules.2.2 ["", ""] [["x"]]]
    decide

/-! ## PDF extractor (`toolbox/pdfExtract.py`)

The geometry and font sizes delivered by the PDF library are exact
rationals here; pages are taken as the typed content of
`page.get_text("dict")` restricted to its text (type-0) blocks. -/

namespace pdfExtract

/-- Run-collapsing engine for `re.sub(r"\s+", " ", s)`: the flag records
whether the previous character was part of a whitespace run. -/
def collapseWsGo : List Char → Bool → List Char
  | [], _ => []
  | c :: rest, inRun =>
      if Py.isSpace c then
        if inRun then collapseWsGo rest true else ' ' :: collapseWsGo rest true
      else c :: collapseWsGo rest false

/-- Run-replacing engine for `re.sub(r"\d+", "#", s)`. -/
def digitRunGo : List Char → Bool → List Char
  | [], _ => []
  | c :: rest, inRun =>
      if c.isDigit then
        if inRun then digitRunGo rest true else '#' :: digitRunGo rest true
      else c :: digitRunGo rest false

/-- `normalize_for_repeat` of `toolbox/pdfExtract.py`: strip, lowercase,
collapse whitespace runs to one space, replace digit runs by `#`. -/
def normalize_for_repeat (s : String) : String :=
  (digitRunGo (collapseWsGo (Py.lower (Py.strip s)).data false) false).asString

/-- `strip_trailing_hyphen_md` of `toolbox/pdfExtract.py`: drop a trailing
hyphen even when it sits just before closing emphasis markers. -/
def strip_trailing_hyphen_md (s : String) : String :=
  let emph : Char → Bool := fun c => c = ' ' || c = '*' || c = '_' || c = '\x60'
  let rev := s.data.reverse
  match rev.dropWhile emph with
  | c :: before =>
      if c = '-' then ((before.reverse) ++ (rev.takeWhile emph).reverse).asString
      else s
  | [] => s

/-! ### Bullet / ordered-marker detection (`detect_bullet`)

The two anchored regular expressions of the source are realized by an
ordered-choice backtracking matcher over `List Char`: a matcher maps an
input to the list of possible remainders in the engine's preference order
(alternatives left to right, quantifiers greedy), which is exactly the
order Python's `re` explores, so the head of the list is Python's match. -/

/-- Match one character satisfying `p`. -/
def mChar (p : Char → Bool) : List Char → List (List Char)
  | [] => []
  | c :: rest => if p c then [rest] else []

/-- Sequencing of matchers, preserving preference order. -/
def mSeq (m1 m2 : List Char → List (List Char)) : List Char → List (List Char) :=
  fun s => ((m1 s).map m2).flatten

/-- Ordered choice (regex alternation). -/
def mAlt (m1 m2 : List Char → List (List Char)) : List Char → List (List Char) :=
  fun s => m1 s ++ m2 s

/-- Greedy `?` (matching preferred over skipping). -/
def mOpt (m : List Char → List (List Char)) : List Char → List (List Char) :=
  fun s => m s ++ [s]

/-- Greedy `p{1,maxN}`: longest first. -/
def mRepRange (p : Char → Bool) (maxN : ℕ) : List Char → List (List Char) :=
  fun s =>
    let run := min maxN (s.takeWhile p).length
    (List.range run).map (fun k => s.drop (run - k))

/-- Greedy `p+`. -/
def mRepPlus (p : Char → Bool) : List Char → List (List Char) :=
  fun s => mRepRange p (s.takeWhile p).length s

/-- The unordered-bullet glyph class `[•‣◦▪\-\–\—·●♦\*]`. -/
def bulletGlyphs : List Char :=
  ['•', '‣', '◦', '▪', '-', '–', '—', '·', '●', '♦', '*']

/-- `[a-z]` under `re.I`. -/
def isAsciiAlpha (c : Char) : Bool :=
  ('a' ≤ c && c ≤ 'z') || ('A' ≤ c && c ≤ 'Z')

/-- `[ivxlcdm]` under `re.I`. -/
def isRoman (c : Char) : Bool :=
  c ∈ (['i', 'v', 'x', 'l', 'c', 'd', 'm', 'I', 'V', 'X', 'L', 'C', 'D', 'M'] : List Char)

/-- `^([•‣◦▪\-\–\—·●♦\*])\s+` : `some end` with the match length. -/
def matchUnordered (s : List Char) : Option ℕ :=
  match mSeq (mChar (· ∈ bulletGlyphs)) (mRepPlus Py.isSpace) s with
  | [] => none
  | r :: _ => some (s.length - r.length)

/-- `^(\(?(\d+|[a-z]{1,3}|[ivxlcdm]{1,6})[\.\)]\)?|\(\d+\)|\([a-z]{1,3}\)|\([ivxlcdm]{1,6}\))\s+`
with `re.I`. -/
def matchOrdered (s : List Char) : Option ℕ :=
  let innerAlt := mAlt (mRepPlus Char.isDigit)
    (mAlt (mRepRange isAsciiAlpha 3) (mRepRange isRoman 6))
  let groupA := mSeq (mOpt (mChar (· = '(')))
    (mSeq innerAlt (mSeq (mChar (fun c => c = '.' || c = ')')) (mOpt (mChar (· = ')')))))
  let groupB := mSeq (mChar (· = '(')) (mSeq (mRepPlus Char.isDigit) (mChar (· = ')')))
  let groupC := mSeq (mChar (· = '(')) (mSeq (mRepRange isAsciiAlpha 3) (mChar (· = ')')))
  let groupD := mSeq (mChar (· = '(')) (mSeq (mRepRange isRoman 6) (mChar (· = ')')))
  let group := mAlt groupA (mAlt groupB (mAlt groupC groupD))
  match mSeq group (mRepPlus Py.isSpace) s with
  | [] => none
  | r :: _ => some (s.length - r.length)

/-- `detect_bullet` of `toolbox/pdfExtract.py`:
`(is_list, is_ordered, prefix_char_count_to_strip)`. -/
def detect_bullet (plain : String) : Bool × Bool × ℕ :=
  if plain = "" then (false, false, 0)
  else
    let s := plain.data.dropWhile Py.isSpace
    let lead_ws := plain.data.length - s.length
    match matchUnordered s with
    | some e => (true, false, lead_ws + e)
    | none =>
        match matchOrdered s with
        | some e => (true, true, lead_ws + e)
        | none => (false, false, 0)

/-! ### Spans and lines (`get_page_lines`) -/

/-- A raw span of `page.get_text("dict")` (text, font size, font name). -/
structure RawSpan where
  text : String
  size : ℚ
  font : String
deriving DecidableEq, Repr

/-- A raw line: bounding box plus spans. -/
structure RawLine where
  x0 : ℚ
  y0 : ℚ
  x1 : ℚ
  y1 : ℚ
  spans : List RawSpan
deriving DecidableEq, Repr

/-- One type-0 (text) block of the page dictionary. -/
structure RawBlock where
  lines : List RawLine
deriving DecidableEq, Repr

/-- A page: dimensions plus its text blocks. -/
structure RawPage where
  width : ℚ
  height : ℚ
  blocks : List RawBlock
deriving DecidableEq, Repr

/-- `font_is_bold` of `toolbox/pdfExtract.py`. -/
def font_is_bold (font_name : String) : Bool :=
  if font_name = "" then false
  else
    let f := Py.lower font_name
    (["bold", "black", "heavy", "demi", "semibold", "extrabold", "ultrabold"] : List String).any
      (fun k => decide (k.data <:+: f.data))

/-- `font_is_italic` of `toolbox/pdfExtract.py`. -/
def font_is_italic (font_name : String) : Bool :=
  if font_name = "" then false
  else
    let f := Py.lower font_name
    (["italic", "oblique"] : List String).any (fun k => decide (k.data <:+: f.data))

/-- A processed span as stored by `get_page_lines`
(`{text, size, font, _bold, _italic}`). -/
structure Span where
  text : String
  size : ℚ
  font : String
  bold : Bool
  italic : Bool
deriving DecidableEq, Repr

/-- A processed line as produced by `get_page_lines`. -/
structure Line where
  x0 : ℚ
  y0 : ℚ
  y1 : ℚ
  spans : List Span
  plain : String
  size_avg : ℚ
  block_id : ℕ
deriving DecidableEq, Repr

/-- The span list built per line (empty-text spans skipped, bold/italic
derived from the font name). -/
def mkSpans (spans_in : List RawSpan) : List Span :=
  (spans_in.filter (fun sp => sp.text ≠ "")).map
    (fun sp => ⟨sp.text, sp.size, sp.font, font_is_bold sp.font, font_is_italic sp.font⟩)

/-- `total_chars` of a line. -/
def lineTotalChars (spans : List Span) : ℕ :=
  (spans.map (fun sp => sp.text.length)).sum

/-- `size_weighted` of a line. -/
def lineSizeWeighted (spans : List Span) : ℚ :=
  (spans.map (fun sp => sp.size * (sp.text.length : ℚ))).sum

/-- `plain`: concatenated span texts with `\r` and `\n` removed. -/
def linePlain (spans : List Span) : String :=
  (((spans.map (fun sp => sp.text.data)).flatten).filter
    (fun c => !(c = '\r' || c = '\n'))).asString

/-- `get_page_lines` of `toolbox/pdfExtract.py`: lines with spans, plain
text, char-weighted average size, and per-page block index; returns
`(lines, page_width, page_height)`. -/
def get_page_lines (page : RawPage) : List Line × ℚ × ℚ :=
  let lines :=
    (page.blocks.enum.map (fun bb =>
      bb.2.lines.filterMap (fun ln =>
        let spans := mkSpans ln.spans
        if spans = [] then none
        else some
          { x0 := ln.x0, y0 := ln.y0, y1 := ln.y1,
            spans := spans,
            plain := linePlain spans,
            size_avg := lineSizeWeighted spans / ((max (lineTotalChars spans) 1 : ℕ) : ℚ),
            block_id := bb.1 }))).flatten
  (lines, page.width, page.height)

end pdfExtract

namespace pdfExtract

/-- `render_span_to_md` of `toolbox/pdfExtract.py`. -/
def render_span_to_md (text : String) (bold italic : Bool) : String :=
  if text = "" then ""
  else
    let s := md_escape text
    if bold && italic then "***" ++ s ++ "***"
    else if bold then "**" ++ s ++ "**"
    else if italic then "*" ++ s ++ "*"
    else s

/-- The span loop of `render_spans_from_offset`, carrying `remaining_skip`. -/
def renderSpansGo : List Span → ℕ → String
  | [], _ => ""
  | sp :: rest, remaining_skip =>
      if sp.text = "" then renderSpansGo rest remaining_skip
      else if 0 < remaining_skip then
        if sp.text.length ≤ remaining_skip then
          renderSpansGo rest (remaining_skip - sp.text.length)
        else
          render_span_to_md ((sp.text.data.drop remaining_skip).asString) sp.bold sp.italic
            ++ renderSpansGo rest 0
      else render_span_to_md sp.text sp.bold sp.italic ++ renderSpansGo rest 0

/-- `render_spans_from_offset` of `toolbox/pdfExtract.py`. -/
def render_spans_from_offset (spans : List Span) (skip_chars : ℕ) : String :=
  renderSpansGo spans skip_chars

/-- `unify_size`: round to the nearest 0.5pt (`round(size * 2) / 2.0`). -/
def unify_size (size : ℚ) : ℚ :=
  ((Py.roundHalfEven (size * 2) : ℤ) : ℚ) / 2

/-- Weight of a line in the size histogram (`max(1, len(plain))`). -/
def lineWeight (ln : Line) : ℕ :=
  max 1 ln.plain.length

/-- First-occurrence deduplication (the iteration order of a `Counter`). -/
def firstOccGo : List ℚ → List ℚ → List ℚ
  | [], _ => []
  | x :: rest, seen =>
      if x ∈ seen then firstOccGo rest seen else x :: firstOccGo rest (x :: seen)

/-- Total char-weight a rounded size receives in the histogram. -/
def sizeWeight (all_lines : List Line) (s : ℚ) : ℕ :=
  ((all_lines.filter (fun ln => unify_size ln.size_avg = s)).map lineWeight).sum

/-- `compute_body_font_size` of `toolbox/pdfExtract.py`: the rounded size
with the greatest char-weight (`Counter.most_common` keeps earlier-seen
keys on ties), `12.0` when there is no text. -/
def compute_body_font_size (all_lines : List Line) : ℚ :=
  let cands := firstOccGo
    ((all_lines.map (fun ln => unify_size ln.size_avg)).filter (fun s => 0 < s)) []
  match cands with
  | [] => 12
  | c :: cs =>
      cs.foldl (fun best x =>
        if sizeWeight all_lines best < sizeWeight all_lines x then x else best) c

/-! ### Pass 1: header/footer tallies -/

/-- Whether pass 1 tallies `ln` for the top (`zoneTop`) or bottom zone of a
page of height `ph`: short normalizations are skipped, and a line inside
both bands is tallied only for the top one (the source's `elif`). -/
def talliedInZone (ph : ℚ) (zoneTop : Bool) (ln : Line) : Bool :=
  let norm := normalize_for_repeat ln.plain
  if norm.length < 3 then false
  else if ln.y0 ≤ ph * (0.12 : ℚ) then zoneTop
  else if ln.y1 ≥ ph * (0.88 : ℚ) then !zoneTop
  else false

/-- `top_counts[norm]` (`zoneTop = true`) / `bot_counts[norm]` across the
processed pages. -/
def zoneTally (pages : List (List Line × ℚ × ℚ)) (zoneTop : Bool) (norm : String) : ℕ :=
  (pages.map (fun pl =>
    (pl.1.filter (fun ln =>
      talliedInZone pl.2.2 zoneTop ln && normalize_for_repeat ln.plain = norm)).length)).sum

/-- `thr = max(2, int(round(0.5 * n_pages)))`. -/
def thrPages (n_pages : ℕ) : ℕ :=
  max 2 (Py.roundHalfNat n_pages)

/-- Membership in `reps_top` (`zoneTop = true`) / `reps_bot`: the sets are
built only when removal is on and at least 3 pages were processed. -/
def inReps (remove_headers_footers : Bool) (n_pages : ℕ)
    (pages : List (List Line × ℚ × ℚ)) (zoneTop : Bool) (norm : String) : Bool :=
  remove_headers_footers && decide (3 ≤ n_pages)
    && decide (thrPages n_pages ≤ zoneTally pages zoneTop norm)

/-! ### Pass 2: per-page rendering state machine -/

/-- Mutable state of the page loop: emitted lines, `current_block_id`,
`para_parts`, `prev_plain`. -/
structure RState where
  out : List String
  block : Option ℕ
  parts : List String
  prev : Option String
deriving DecidableEq, Repr

/-- `flush_paragraph` of the page loop. -/
def flush_paragraph (st : RState) : RState :=
  if st.parts = [] then st
  else { st with out := st.out ++ [Py.strip (String.join st.parts), ""], parts := [] }

/-- The pass-2 header/footer skip condition (the two leading `continue`s). -/
def hfDrop (remove_hf : Bool) (inTop inBot : String → Bool) (ph : ℚ) (ln : Line) : Bool :=
  (remove_hf && decide (ln.y0 ≤ ph * (0.12 : ℚ)) && inTop (normalize_for_repeat ln.plain))
    || (remove_hf && decide (ln.y1 ≥ ph * (0.88 : ℚ)) && inBot (normalize_for_repeat ln.plain))

/-- `re.match(r"^[a-z]", s)` on the already-lstripped text. -/
def startsLowerAZ (s : String) : Bool :=
  match s.data with
  | c :: _ => 'a' ≤ c && c ≤ 'z'
  | [] => false

/-- The ordinary-paragraph tail of the line loop: accumulate the rendered
line into `para_parts`, joining with a space, or with the hyphen stripped
and no space when the previous plain text ends in `-` and this line starts
with a lowercase letter; skip without touching `prev_plain` when the line
renders to nothing. -/
def paraStep (st : RState) (ln : Line) : RState :=
  let rendered := Py.strip (render_spans_from_offset ln.spans 0)
  if rendered = "" then st
  else
    let st' :=
      if st.parts = [] then { st with parts := [rendered] }
      else
        let prev_plain_eff := Py.rstrip (st.prev.getD "")
        let this_plain := Py.lstrip ln.plain
        if Py.endswith prev_plain_eff "-" && startsLowerAZ this_plain then
          { st with parts := st.parts.dropLast
              ++ [strip_trailing_hyphen_md (st.parts.getLast?.getD ""), Py.lstrip rendered] }
        else { st with parts := st.parts ++ [" " ++ Py.lstrip rendered] }
    { st' with prev := some ln.plain }

/-- The body of the line loop of pass 2 for one line. -/
def processLine (remove_hf : Bool) (inTop inBot : String → Bool)
    (ph body left_base : ℚ) (st : RState) (ln : Line) : RState :=
  if hfDrop remove_hf inTop inBot ph ln then st
  else
    let st1 :=
      match st.block with
      | none => { st with block := some ln.block_id }
      | some b =>
          if ln.block_id ≠ b then
            { flush_paragraph st with block := some ln.block_id, prev := none }
          else st
    let plain := Py.strip ln.plain
    if plain = "" then { flush_paragraph st1 with prev := none }
    else
      match detect_bullet ln.plain with
      | (true, is_ordered, skip_chars) =>
          let st2 := flush_paragraph st1
          let indent_level : ℤ :=
            max 0 (min 8 (Py.roundHalfEven (max 0 ((ln.x0 - left_base) / 18))))
          let indent := String.join (List.replicate indent_level.toNat "  ")
          let marker := if is_ordered then "1. " else "- "
          let content_md := Py.strip (render_spans_from_offset ln.spans skip_chars)
          if content_md = "" then st2
          else { st2 with out := st2.out ++ [indent ++ marker ++ content_md], prev := none }
      | (false, _, _) =>
          match heading_level_for_size ln.size_avg body with
          | some lvl =>
              if plain.length ≤ 160 then
                let st2 := flush_paragraph st1
                let text_md := Py.strip (render_spans_from_offset ln.spans 0)
                { st2 with
                  out := st2.out
                    ++ [String.join (List.replicate lvl "#") ++ " " ++ text_md, ""],
                  prev := none }
              else paraStep st1 ln
          | none => paraStep st1 ln

/-- `left_min` of a page (`min(..., default=0.0)`). -/
def leftBase (lines : List Line) : ℚ :=
  match lines.map (fun ln => ln.x0) with
  | [] => 0
  | x :: xs => xs.foldl min x

/-- The `out_lines` entries pass 2 emits for one page (optional `## Page N`
heading, the line loop, final paragraph flush). -/
def renderPageOut (include_page_headings remove_hf : Bool)
    (inTop inBot : String → Bool) (body : ℚ) (page_index : ℕ)
    (pl : List Line × ℚ × ℚ) : List String :=
  let st0 : RState :=
    { out := if include_page_headings then ["## Page " ++ toString (page_index + 1), ""] else [],
      block := none, parts := [], prev := none }
  (flush_paragraph
    (pl.1.foldl (processLine remove_hf inTop inBot pl.2.2 body (leftBase pl.1)) st0)).out

/-- `n_pages` of `pdf_to_markdown` (`max_pages = 0` means no limit). -/
def nPages (doc : List RawPage) (max_pages : ℕ) : ℕ :=
  if max_pages = 0 then doc.length else min max_pages doc.length

/-- The processed pages, as `(lines, width, height)` triples. -/
def pagesOf (doc : List RawPage) (max_pages : ℕ) : List (List Line × ℚ × ℚ) :=
  ((doc.take (nPages doc max_pages)).map get_page_lines)

/-- `pdf_to_markdown` of `toolbox/pdfExtract.py`: pass-1 statistics (body
size, header/footer tallies), pass-2 rendering, `rstrip` plus a final
newline. -/
def pdf_to_markdown (doc : List RawPage)
    (include_page_headings remove_headers_footers : Bool) (max_pages : ℕ) : String :=
  let n_pages := nPages doc max_pages
  let pages := pagesOf doc max_pages
  let body_size := compute_body_font_size ((pages.map (fun pl => pl.1)).flatten)
  let inTop := inReps remove_headers_footers n_pages pages true
  let inBot := inReps remove_headers_footers n_pages pages false
  let outLines :=
    [""] ++ (pages.enum.map (fun pp =>
      renderPageOut include_page_headings remove_headers_footers inTop inBot
        body_size pp.1 pp.2)).flatten
  Py.rstrip (Py.joinWith "\n" outLines) ++ "\n"

end pdfExtract

theorem roundHalfNat_le_ceil (n : ℕ) : Py.roundHalfNat n ≤ (n + 1) / 2 := by
  unfold Py.roundHalfNat
  split_ifs <;> omega

/-- C1: with header/footer removal enabled and at least 3 processed pages,
any line whose normalized text is tallied in the top 12%-height zone at
least `max(2, ceil(0.5 * pageCount))` times is skipped by pass 2 on every
page where it lies in that zone (the renderer's state is unchanged on it);
symmetrically for the bottom zone; and with fewer than 3 processed pages
the header/footer rule skips nothing.  The claimed ceiling threshold is
never below the code's `max(2, round(0.5 * pageCount))` threshold, so
reaching it forces the drop. -/
theorem recurring_headers_dropped (doc : List pdfExtract.RawPage) (max_pages : ℕ)
    (pl : List pdfExtract.Line × ℚ × ℚ) (hpl : pl ∈ pdfExtract.pagesOf doc max_pages)
    (ln : pdfExtract.Line) (hln : ln ∈ pl.1) :
    (3 ≤ pdfExtract.nPages doc max_pages →
      max 2 ((pdfExtract.nPages doc max_pages + 1) / 2)
          ≤ pdfExtract.zoneTally (pdfExtract.pagesOf doc max_pages) true
              (pdfExtract.normalize_for_repeat ln.plain) →
      ln.y0 ≤ pl.2.2 * (0.12 : ℚ) →
      ∀ (body left_base : ℚ) (st : pdfExtract.RState),
        pdfExtract.processLine true
          (pdfExtract.inReps true (pdfExtract.nPages doc max_pages)
            (pdfExtract.pagesOf doc max_pages) true)
          (pdfExtract.inReps true (pdfExtract.nPages doc max_pages)
            (pdfExtract.pagesOf doc max_pages) false)
          pl.2.2 body left_base st ln = st)
    ∧ (3 ≤ pdfExtract.nPages doc max_pages →
      max 2 ((pdfExtract.nPages doc max_pages + 1) / 2)
          ≤ pdfExtract.zoneTally (pdfExtract.pagesOf doc max_pages) false
              (pdfExtract.normalize_for_repeat ln.plain) →
      ln.y1 ≥ pl.2.2 * (0.88 : ℚ) →
      ∀ (body left_base : ℚ) (st : pdfExtract.RState),
        pdfExtract.processLine true
          (pdfExtract.inReps true (pdfExtract.nPages doc max_pages)
            (pdfExtract.pagesOf doc max_pages) true)
          (pdfExtract.inReps true (pdfExtract.nPages doc max_pages)
            (pdfExtract.pagesOf doc max_pages) false)
          pl.2.2 body left_base st ln = st)
    ∧ (pdfExtract.nPages doc max_pages < 3 →
      pdfExtract.hfDrop true
        (pdfExtract.inReps true (pdfExtract.nPages doc max_pages)
          (pdfExtract.pagesOf doc max_pages) true)
        (pdfExtract.inReps true (pdfExtract.nPages doc max_pages)
          (pdfExtract.pagesOf doc max_pages) false)
        pl.2.2 ln = false) := by
  have hthr : ∀ n : ℕ, pdfExtract.thrPages n ≤ max 2 ((n + 1) / 2) :=
    fun n => max_le_max le_rfl (roundHalfNat_le_ceil n)
  refine ⟨?_, ?_, ?_⟩
  · intro h3 htally hy0 body left_base st
    unfold pdfExtract.processLine
    rw [if_pos]
    unfold pdfExtract.hfDrop pdfExtract.inReps
    rw [decide_eq_true hy0, decide_eq_true h3,
      decide_eq_true (le_trans (hthr _) htally)]
    simp
  · intro h3 htally hy1 body left_base st
    unfold pdfExtract.processLine
    rw [if_pos]
    unfold pdfExtract.hfDrop pdfExtract.inReps
    rw [decide_eq_true hy1, decide_eq_true h3,
      decide_eq_true (le_trans (hthr _) htally)]
    simp
  · intro hlt
    unfold pdfExtract.hfDrop pdfExtract.inReps
    rw [decide_eq_false (by omega : ¬ 3 ≤ pdfExtract.nPages doc max_pages)]
    simp

/-- A concrete header span for the C1 witness document. -/
def wRawSpan : pdfExtract.RawSpan := ⟨"Confidential Report 7", 12, "Helvetica"⟩

/-- A page whose single line starts exactly on the top-zone boundary. -/
def wPage : pdfExtract.RawPage :=
  ⟨200, 100, [⟨[⟨10, 100 * (0.12 : ℚ), 150, 15, [wRawSpan]⟩]⟩]⟩

/-- A three-page document repeating the header line on every page. -/
def wDoc : List pdfExtract.RawPage := [wPage, wPage, wPage]

/-- The processed header line of `wPage`. -/
def wLn : pdfExtract.Line := (pdfExtract.get_page_lines wPage).1.headD
  ⟨0, 0, 0, [], "", 0, 0⟩

/-- C1 witness: the recurring top-zone line of the three-page document is
skipped by pass 2 (tally 3 meets the claimed threshold `max(2, 2) = 2`). -/
theorem recurring_headers_dropped_witness :
    pdfExtract.processLine true
      (pdfExtract.inReps true (pdfExtract.nPages wDoc 0) (pdfExtract.pagesOf wDoc 0) true)
      (pdfExtract.inReps true (pdfExtract.nPages wDoc 0) (pdfExtract.pagesOf wDoc 0) false)
      (pdfExtract.get_page_lines wPage).2.2 12 0
      ⟨[], none, [], none⟩ wLn
    = ⟨[], none, [], none⟩ := by
  have hg : pdfExtract.get_page_lines wPage = ([wLn], 200, 100) := rfl
  have hpages : pdfExtract.pagesOf wDoc 0
      = [([wLn], 200, 100), ([wLn], 200, 100), ([wLn], 200, 100)] := rfl
  have hpl : pdfExtract.get_page_lines wPage ∈ pdfExtract.pagesOf wDoc 0 := by
    rw [hpages, hg]
    exact List.mem_cons_self _ _
  have hln : wLn ∈ (pdfExtract.get_page_lines wPage).1 := by
    rw [hg]
    exact List.mem_singleton.mpr rfl
  have htz : pdfExtract.talliedInZone 100 true wLn = true := by
    simp only [pdfExtract.talliedInZone]
    rw [if_neg (by decide), if_pos (show wLn.y0 ≤ 100 * (0.12 : ℚ) from le_refl _)]
  have hz : pdfExtract.zoneTally (pdfExtract.pagesOf wDoc 0) true
      (pdfExtract.normalize_for_repeat wLn.plain) = 3 := by
    rw [hpages]
    unfold pdfExtract.zoneTally
    simp only [List.map_cons, List.map_nil, List.filter_cons, List.filter_nil, htz]
    rfl
  have hn : pdfExtract.nPages wDoc 0 = 3 := rfl
  have htally : max 2 ((pdfExtract.nPages wDoc 0 + 1) / 2)
      ≤ pdfExtract.zoneTally (pdfExtract.pagesOf wDoc 0) true
          (pdfExtract.normalize_for_repeat wLn.plain) := by
    rw [hn, hz]
    decide
  exact (recurring_headers_dropped wDoc 0 (pdfExtract.get_page_lines wPage) hpl wLn hln).1
    (by decide) htally
    (show wLn.y0 ≤ (pdfExtract.get_page_lines wPage).2.2 * (0.12 : ℚ) from le_refl _)
    12 0 ⟨[], none, [], none⟩

theorem dropWhile_append_all {α : Type} (p : α → Bool) (l1 l2 : List α)
    (h : l1.all p = true) : (l1 ++ l2).dropWhile p = l2.dropWhile p := by
  induction l1 with
  | nil => rfl
  | cons a l ih =>
    rw [List.all_cons, Bool.and_eq_true] at h
    rw [List.cons_append, List.dropWhile_cons, if_pos h.1, ih h.2]

theorem takeWhile_append_all {α : Type} (p : α → Bool) (l1 l2 : List α)
    (h : l1.all p = true) : (l1 ++ l2).takeWhile p = l1 ++ l2.takeWhile p := by
  induction l1 with
  | nil => rfl
  | cons a l ih =>
    rw [List.all_cons, Bool.and_eq_true] at h
    rw [List.cons_append, List.takeWhile_cons, if_pos h.1, ih h.2, List.cons_append]

theorem strip_trailing_hyphen_append (u em : String)
    (h : em.data.all (fun c => c = ' ' || c = '*' || c = '_' || c = '\x60') = true) :
    pdfExtract.strip_trailing_hyphen_md (u ++ "-" ++ em) = u ++ em := by
  have hrev : (u ++ "-" ++ em).data.reverse
      = em.data.reverse ++ ('-' :: u.data.reverse) := by
    rw [String.data_append, String.data_append, List.reverse_append, List.reverse_append]
    rfl
  have hallrev : em.data.reverse.all
      (fun c => c = ' ' || c = '*' || c = '_' || c = '\x60') = true := by
    rw [List.all_reverse]
    exact h
  have hdrop : (u ++ "-" ++ em).data.reverse.dropWhile
        (fun c => c = ' ' || c = '*' || c = '_' || c = '\x60')
      = '-' :: u.data.reverse := by
    rw [hrev, dropWhile_append_all _ _ _ hallrev, List.dropWhile_cons, if_neg (by decide)]
  have htake : (u ++ "-" ++ em).data.reverse.takeWhile
        (fun c => c = ' ' || c = '*' || c = '_' || c = '\x60')
      = em.data.reverse := by
    rw [hrev, takeWhile_append_all _ _ _ hallrev, List.takeWhile_cons, if_neg (by decide),
      List.append_nil]
  unfold pdfExtract.strip_trailing_hyphen_md
  simp only [hdrop, htake, if_pos rfl, if_true, List.reverse_reverse]
  apply string_eq_of_toList
  rw [List.toList_asString, Py.toList_append]
  rfl

/-- For the C8 instance: an unstyled body-size span. -/
def cSpan (t : String) : pdfExtract.Span := ⟨t, 12, "Helvetica", false, false⟩

/-- First wrapped line `system-` of the C8 instance (block 0, body size). -/
def cLn1 : pdfExtract.Line := ⟨20, 40, 45, [cSpan "system-"], "system-", 12, 0⟩

/-- Second wrapped line `atic approach` of the C8 instance. -/
def cLn2 : pdfExtract.Line := ⟨20, 50, 55, [cSpan "atic approach"], "atic approach", 12, 0⟩

/-- The C8 one-block page holding the two wrapped lines. -/
def cPage : List pdfExtract.Line × ℚ × ℚ := ([cLn1, cLn2], 200, 100)

/-- C8: when a paragraph buffer is non-empty, the previous plain text ends
with `-` (after right-stripping) and the next line starts with a lowercase
letter, the accumulator replaces the buffered Markdown's tail by its
hyphen-stripped form and appends the new rendering with no separating
space; the hyphen is removed even through closing emphasis markers; and a
page consisting of the two wrapped lines `system-` / `atic approach`
renders as the single paragraph `systematic approach`. -/
theorem hyphenation_join :
    (∀ (st : pdfExtract.RState) (ln : pdfExtract.Line) (p : String),
        st.parts ≠ [] → st.prev = some p →
        Py.endswith (Py.rstrip p) "-" = true →
        pdfExtract.startsLowerAZ (Py.lstrip ln.plain) = true →
        Py.strip (pdfExtract.render_spans_from_offset ln.spans 0) ≠ "" →
        pdfExtract.paraStep st ln
          = { st with
              parts := st.parts.dropLast
                ++ [pdfExtract.strip_trailing_hyphen_md (st.parts.getLast?.getD ""),
                    Py.lstrip (Py.strip (pdfExtract.render_spans_from_offset ln.spans 0))],
              prev := some ln.plain })
    ∧ (∀ u em : String,
        em.data.all (fun c => c = ' ' || c = '*' || c = '_' || c = '\x60') = true →
        pdfExtract.strip_trailing_hyphen_md (u ++ "-" ++ em) = u ++ em)
    ∧ pdfExtract.renderPageOut false true
        (pdfExtract.inReps true 1 [cPage] true) (pdfExtract.inReps true 1 [cPage] false)
        12 0 cPage
      = ["systematic approach", ""] := by
  refine ⟨?_, strip_trailing_hyphen_append, ?_⟩
  · intro st ln p hparts hprev hends hlow hrend
    simp only [pdfExtract.paraStep]
    rw [if_neg hrend, if_neg hparts, hprev]
    simp [hends, hlow]
  · have hh : pdfExtract.heading_level_for_size (12 : ℚ) 12 = none := by
      norm_num [pdfExtract.heading_level_for_size]
    have hdb1 : pdfExtract.detect_bullet "system-" = (false, false, 0) := by decide
    have hdb2 : pdfExtract.detect_bullet "atic approach" = (false, false, 0) := by decide
    have hrep : ∀ (z : Bool) (nrm : String),
        pdfExtract.inReps true 1 [cPage] z nrm = false := by
      intro z nrm
      simp [pdfExtract.inReps]
    have hdropF : ∀ ln : pdfExtract.Line,
        pdfExtract.hfDrop true (pdfExtract.inReps true 1 [cPage] true)
          (pdfExtract.inReps true 1 [cPage] false) 100 ln = false := by
      intro ln
      simp [pdfExtract.hfDrop, hrep]
    have hr1 : Py.strip (pdfExtract.render_spans_from_offset [cSpan "system-"] 0)
        = "system-" := by decide
    have hr2 : Py.strip (pdfExtract.render_spans_from_offset [cSpan "atic approach"] 0)
        = "atic approach" := by decide
    have hc1 : cPage.1 = [cLn1, cLn2] := rfl
    have hc22 : cPage.2.2 = 100 := rfl
    simp only [pdfExtract.renderPageOut, hc1, hc22, List.foldl_cons, List.foldl_nil]
    simp +decide only [pdfExtract.processLine, pdfExtract.paraStep, pdfExtract.flush_paragraph,
      hdropF, hh, hdb1, hdb2, hr1, hr2, cLn1, cLn2, Option.getD_some, Bool.false_eq_true,
      if_false]

/-- C8 witness: the hyphen is stripped from the buffered `**system-**`
(through the closing `**`) and `atic approach` is appended with no space. -/
theorem hyphenation_join_witness :
    pdfExtract.paraStep ⟨[], some 0, ["**system-**"], some "system-"⟩ cLn2
      = ⟨[], some 0, ["**system**", "atic approach"], some "atic approach"⟩ := by
  rw [hyphenation_join.1 ⟨[], some 0, ["**system-**"], some "system-"⟩ cLn2 "system-"
    (by decide) rfl (by decide) (by decide) (by decide)]
  decide
